import Mathlib

/-!
Verification of the rtl8152-led-ctrl repository: a shallow embedding of
`src/result.rs`, `src/led.rs` and `src/device.rs` into Lean, with theorems
settling the specification claims.  Machine integers (`u8`, `u16`, `u32`)
are modelled as `Nat` with explicit `% 2^w` / masking where the source
truncates; fallible Rust functions return `Except Err`; the `unwrap` calls
in `led.rs` are modelled through `Option`, `none` standing for a panic.
-/

set_option maxHeartbeats 1000000

namespace Rtl8152

/-- Error enum from `result.rs`; `usb` wraps the transport error
(`rusb::Error`, modelled as an opaque numeric code) and `shortTransfer`
stands for `Error::Partial`. -/
inductive Err where
  | parse
  | unknownDevice
  | notExist
  | align
  | bound
  | shortTransfer
  | usb (code : Nat)
deriving DecidableEq

/-! Constants from `led.rs`. -/

def PLA_LED_SELECT : Nat := 0xdd90

def LED_SEL_LINK_10 : Nat := 1

def LED_SEL_LINK_100 : Nat := 1 <<< 1

def LED_SEL_LINK_1000 : Nat := 1 <<< 2

def LED_SEL_ACTIVITY : Nat := 1 <<< 3

def LED_VALUE_MASK : Nat := 0xfffff

/-- The `u32` complement `!LED_VALUE_MASK` used by `led.rs` for the
unknown-bits residue (bits 20..31). -/
def NOT_LED_VALUE_MASK : Nat := 0xfff00000

/-- Per-LED configuration, `LedConfig<I>` from `led.rs`. -/
structure LedConfig where
  link10 : Bool
  link100 : Bool
  link1000 : Bool
  activity : Bool
  high_active : Bool
deriving DecidableEq

/-- `LedConfig::<I>::from_raw`; the const generic `I` is an ordinary
argument here, call sites use `i = 0, 1, 2`. -/
def LedConfig.from_raw (i v : Nat) : LedConfig :=
  let led_select := v >>> (i * 4)
  let high_active := v &&& (1 <<< (12 + i))
  { link10 := led_select &&& LED_SEL_LINK_10 != 0
    link100 := led_select &&& LED_SEL_LINK_100 != 0
    link1000 := led_select &&& LED_SEL_LINK_1000 != 0
    activity := led_select &&& LED_SEL_ACTIVITY != 0
    high_active := high_active != 0 }

/-- `LedConfig::<I>::to_raw`: OR the selected trigger bits together, shift
into the LED's nibble, then OR in the polarity bit. -/
def LedConfig.to_raw (i : Nat) (c : LedConfig) : Nat :=
  let s0 : Nat := 0
  let s1 := if c.link10 then s0 ||| LED_SEL_LINK_10 else s0
  let s2 := if c.link100 then s1 ||| LED_SEL_LINK_100 else s1
  let s3 := if c.link1000 then s2 ||| LED_SEL_LINK_1000 else s2
  let s4 := if c.activity then s3 ||| LED_SEL_ACTIVITY else s3
  let s5 := s4 <<< (i * 4)
  if c.high_active then s5 ||| (1 <<< (12 + i)) else s5

/-- `BlinkInterval` from `led.rs`. -/
inductive BlinkInterval where
  | i240
  | i160
  | i80
  | iLink
deriving DecidableEq

/-- Rust discriminant of `BlinkInterval` (`self as u32`). -/
def BlinkInterval.toCode : BlinkInterval → Nat
  | .i240 => 0
  | .i160 => 1
  | .i80 => 2
  | .iLink => 3

/-- `BlinkInterval::from_num`. -/
def BlinkInterval.from_num : Nat → Except Err BlinkInterval
  | 0 => .ok .i240
  | 1 => .ok .i160
  | 2 => .ok .i80
  | 3 => .ok .iLink
  | _ => .error .parse

/-- `BlinkInterval::from_raw`; the source calls `.unwrap()` on the result of
`from_num`, so `none` models the panic case. -/
def BlinkInterval.from_raw (v : Nat) : Option BlinkInterval :=
  (BlinkInterval.from_num ((v >>> 18) &&& 0b11)).toOption

/-- `BlinkInterval::to_raw`. -/
def BlinkInterval.to_raw (b : BlinkInterval) : Nat := b.toCode <<< 18

/-- `BlinkDutyCycle` from `led.rs`. -/
inductive BlinkDutyCycle where
  | r12_5
  | r25
  | r50
  | r75
deriving DecidableEq

/-- Rust discriminant of `BlinkDutyCycle` (`self as u32`). -/
def BlinkDutyCycle.toCode : BlinkDutyCycle → Nat
  | .r12_5 => 0
  | .r25 => 1
  | .r50 => 2
  | .r75 => 3

/-- `BlinkDutyCycle::from_num`. -/
def BlinkDutyCycle.from_num : Nat → Except Err BlinkDutyCycle
  | 0 => .ok .r12_5
  | 1 => .ok .r25
  | 2 => .ok .r50
  | 3 => .ok .r75
  | _ => .error .parse

/-- `BlinkDutyCycle::from_raw`; `none` models the `.unwrap()` panic case. -/
def BlinkDutyCycle.from_raw (v : Nat) : Option BlinkDutyCycle :=
  (BlinkDutyCycle.from_num ((v >>> 16) &&& 0b11)).toOption

/-- `BlinkDutyCycle::to_raw`. -/
def BlinkDutyCycle.to_raw (b : BlinkDutyCycle) : Nat := b.toCode <<< 16

/-- `LedGlobalConfig` from `led.rs`. -/
structure LedGlobalConfig where
  led_0 : LedConfig
  led_1 : LedConfig
  led_2 : LedConfig
  all_link_activity : Bool
  blink_interval : BlinkInterval
  blink_duty_cycle : BlinkDutyCycle
  unknown : Nat
deriving DecidableEq

/-- `LedGlobalConfig::from_raw`; `none` propagates a (never occurring)
`unwrap` panic from the two blink-field decoders. -/
def LedGlobalConfig.from_raw (v : Nat) : Option LedGlobalConfig := do
  let bi ← BlinkInterval.from_raw v
  let bd ← BlinkDutyCycle.from_raw v
  pure
    { led_0 := LedConfig.from_raw 0 v
      led_1 := LedConfig.from_raw 1 v
      led_2 := LedConfig.from_raw 2 v
      all_link_activity := v &&& (1 <<< 15) != 0
      blink_interval := bi
      blink_duty_cycle := bd
      unknown := v &&& NOT_LED_VALUE_MASK }

/-- `LedGlobalConfig::to_raw`. -/
def LedGlobalConfig.to_raw (c : LedGlobalConfig) : Nat :=
  let led_0 := c.led_0.to_raw 0
  let led_1 := c.led_1.to_raw 1
  let led_2 := c.led_2.to_raw 2
  let all_link_activity := c.all_link_activity.toNat <<< 15
  let blink_interval := c.blink_interval.to_raw
  let blink_duty_cycle := c.blink_duty_cycle.to_raw
  led_0 ||| led_1 ||| led_2 ||| all_link_activity ||| blink_interval |||
    blink_duty_cycle ||| (c.unknown &&& NOT_LED_VALUE_MASK)

/-! Helper functions for stating the decoded blink fields in closed form
(proof-layer helpers, not part of the source). -/

def intervalOf : Nat → BlinkInterval
  | 0 => .i240
  | 1 => .i160
  | 2 => .i80
  | _ => .iLink

def dutyOf : Nat → BlinkDutyCycle
  | 0 => .r12_5
  | 1 => .r25
  | 2 => .r50
  | _ => .r75

lemma and_three_lt (x : Nat) : x &&& 3 < 4 :=
  lt_of_le_of_lt Nat.and_le_right (by norm_num)

lemma bi_from_raw_eq (v : Nat) :
    BlinkInterval.from_raw v = some (intervalOf ((v >>> 18) &&& 3)) := by
  have h : (v >>> 18) &&& 3 < 4 := and_three_lt _
  unfold BlinkInterval.from_raw
  generalize (v >>> 18) &&& 3 = m at *
  interval_cases m <;> rfl

lemma bd_from_raw_eq (v : Nat) :
    BlinkDutyCycle.from_raw v = some (dutyOf ((v >>> 16) &&& 3)) := by
  have h : (v >>> 16) &&& 3 < 4 := and_three_lt _
  unfold BlinkDutyCycle.from_raw
  generalize (v >>> 16) &&& 3 = m at *
  interval_cases m <;> rfl

lemma toCode_intervalOf (m : Nat) (h : m < 4) : (intervalOf m).toCode = m := by
  interval_cases m <;> rfl

lemma toCode_dutyOf (m : Nat) (h : m < 4) : (dutyOf m).toCode = m := by
  interval_cases m <;> rfl

lemma ledGlobal_from_raw_eq (v : Nat) :
    LedGlobalConfig.from_raw v = some
      { led_0 := LedConfig.from_raw 0 v
        led_1 := LedConfig.from_raw 1 v
        led_2 := LedConfig.from_raw 2 v
        all_link_activity := v &&& (1 <<< 15) != 0
        blink_interval := intervalOf ((v >>> 18) &&& 3)
        blink_duty_cycle := dutyOf ((v >>> 16) &&& 3)
        unknown := v &&& NOT_LED_VALUE_MASK } := by
  rw [LedGlobalConfig.from_raw, bi_from_raw_eq, bd_from_raw_eq]
  rfl

/-! Bit-level helper lemmas for the LED round-trip proof.  `bitv` is a
wrapper around `Nat.testBit` that the default simp set leaves alone, so the
per-bit goals can be closed by `simp` without the atoms being rewritten. -/

def bitv (v k : Nat) : Bool := v.testBit k

lemma tb_to_bitv (v k : Nat) : v.testBit k = bitv v k := rfl

lemma bne_and_two_pow (x j : Nat) : (x &&& 2 ^ j != 0) = bitv x j := by
  rw [Nat.and_two_pow]
  show _ = Nat.testBit x j
  cases h : x.testBit j <;> simp [Nat.pos_iff_ne_zero, Nat.pos_pow_of_pos]

lemma tb_select (v k j : Nat) : ((v >>> k) &&& 2 ^ j != 0) = bitv v (k + j) := by
  rw [bne_and_two_pow]
  show Nat.testBit _ _ = Nat.testBit _ _
  rw [Nat.testBit_shiftRight]

lemma bv_or (x y i : Nat) : bitv (x ||| y) i = (bitv x i || bitv y i) :=
  Nat.testBit_or x y i

lemma bv_and (x y i : Nat) : bitv (x &&& y) i = (bitv x i && bitv y i) :=
  Nat.testBit_and x y i

lemma bv_shiftLeft (x n i : Nat) :
    bitv (x <<< n) i = (decide (n ≤ i) && bitv x (i - n)) :=
  Nat.testBit_shiftLeft x

lemma bv_shiftRight (x n i : Nat) : bitv (x >>> n) i = bitv x (n + i) :=
  Nat.testBit_shiftRight x

lemma bv_ite_or (b : Bool) (x m i : Nat) :
    bitv (if b then x ||| m else x) i = (bitv x i || (b && bitv m i)) := by
  cases b <;> simp [bitv]

lemma bv_zero (i : Nat) : bitv 0 i = false := Nat.zero_testBit i

lemma bv_two_pow (n i : Nat) : bitv (2 ^ n) i = decide (n = i) :=
  Nat.testBit_two_pow

lemma bv_three (j : Nat) : bitv 3 j = decide (j < 2) := by
  show Nat.testBit 3 j = _
  rw [show (3 : Nat) = 2 ^ 2 - 1 from rfl, Nat.testBit_two_pow_sub_one]

lemma bv_nmask (i : Nat) :
    bitv NOT_LED_VALUE_MASK i = (decide (20 ≤ i) && decide (i - 20 < 12)) := by
  show Nat.testBit _ _ = _
  rw [show NOT_LED_VALUE_MASK = (2 ^ 12 - 1) <<< 20 from rfl,
    Nat.testBit_shiftLeft, Nat.testBit_two_pow_sub_one]

lemma bv_toNat (b : Bool) (j : Nat) :
    bitv b.toNat j = (b && decide (0 = j)) := by
  cases b
  · simp [bitv]
  · show Nat.testBit 1 j = (true && decide (0 = j))
    rw [Bool.true_and, show (1 : Nat) = 2 ^ 0 from rfl, Nat.testBit_two_pow]

lemma bv_one (j : Nat) : bitv 1 j = decide (0 = j) := by
  show Nat.testBit 1 j = _
  rw [show (1 : Nat) = 2 ^ 0 from rfl, Nat.testBit_two_pow]

lemma bv_ite_one (b : Bool) (j : Nat) :
    bitv (if b = true then 1 else 0) j = (b && decide (0 = j)) := by
  cases b
  · simp [bv_zero]
  · simp [bv_one]

lemma bv_two (j : Nat) : bitv 2 j = decide (1 = j) := by
  show Nat.testBit 2 j = _
  rw [show (2 : Nat) = 2 ^ 1 from rfl, Nat.testBit_two_pow]

lemma bv_four (j : Nat) : bitv 4 j = decide (2 = j) := by
  show Nat.testBit 4 j = _
  rw [show (4 : Nat) = 2 ^ 2 from rfl, Nat.testBit_two_pow]

lemma bv_eight (j : Nat) : bitv 8 j = decide (3 = j) := by
  show Nat.testBit 8 j = _
  rw [show (8 : Nat) = 2 ^ 3 from rfl, Nat.testBit_two_pow]

lemma bv_p12 (j : Nat) : bitv 4096 j = decide (12 = j) := by
  show Nat.testBit 4096 j = _
  rw [show (4096 : Nat) = 2 ^ 12 from rfl, Nat.testBit_two_pow]

lemma bv_p13 (j : Nat) : bitv 8192 j = decide (13 = j) := by
  show Nat.testBit 8192 j = _
  rw [show (8192 : Nat) = 2 ^ 13 from rfl, Nat.testBit_two_pow]

lemma bv_p14 (j : Nat) : bitv 16384 j = decide (14 = j) := by
  show Nat.testBit 16384 j = _
  rw [show (16384 : Nat) = 2 ^ 14 from rfl, Nat.testBit_two_pow]

lemma bv_p15 (j : Nat) : bitv 32768 j = decide (15 = j) := by
  show Nat.testBit 32768 j = _
  rw [show (32768 : Nat) = 2 ^ 15 from rfl, Nat.testBit_two_pow]

lemma land_idem (x y : Nat) : (x &&& y) &&& y = x &&& y := by
  rw [Nat.and_assoc, Nat.and_self]

lemma sel10_eq : LED_SEL_LINK_10 = 2 ^ 0 := rfl

lemma sel100_eq : LED_SEL_LINK_100 = 2 ^ 1 := rfl

lemma sel1000_eq : LED_SEL_LINK_1000 = 2 ^ 2 := rfl

lemma selact_eq : LED_SEL_ACTIVITY = 2 ^ 3 := rfl

lemma toCode_intervalOf_and (v : Nat) :
    (intervalOf ((v >>> 18) &&& 3)).toCode = (v >>> 18) &&& 3 :=
  toCode_intervalOf _ (and_three_lt _)

lemma toCode_dutyOf_and (v : Nat) :
    (dutyOf ((v >>> 16) &&& 3)).toCode = (v >>> 16) &&& 3 :=
  toCode_dutyOf _ (and_three_lt _)

lemma ledConfig_to_raw_lt0 (c : LedConfig) : LedConfig.to_raw 0 c < 2 ^ 32 := by
  rcases c with ⟨a, b, g, d, e⟩
  cases a <;> cases b <;> cases g <;> cases d <;> cases e <;> decide

lemma ledConfig_to_raw_lt1 (c : LedConfig) : LedConfig.to_raw 1 c < 2 ^ 32 := by
  rcases c with ⟨a, b, g, d, e⟩
  cases a <;> cases b <;> cases g <;> cases d <;> cases e <;> decide

lemma ledConfig_to_raw_lt2 (c : LedConfig) : LedConfig.to_raw 2 c < 2 ^ 32 := by
  rcases c with ⟨a, b, g, d, e⟩
  cases a <;> cases b <;> cases g <;> cases d <;> cases e <;> decide

lemma ledGlobal_to_raw_lt (c : LedGlobalConfig) :
    LedGlobalConfig.to_raw c < 2 ^ 32 := by
  have h0 := ledConfig_to_raw_lt0 c.led_0
  have h1 := ledConfig_to_raw_lt1 c.led_1
  have h2 := ledConfig_to_raw_lt2 c.led_2
  have h3 : c.all_link_activity.toNat <<< 15 < 2 ^ 32 := by
    cases c.all_link_activity <;> decide
  have h4 : c.blink_interval.to_raw < 2 ^ 32 := by
    cases c.blink_interval <;> decide
  have h5 : c.blink_duty_cycle.to_raw < 2 ^ 32 := by
    cases c.blink_duty_cycle <;> decide
  have h6 : c.unknown &&& NOT_LED_VALUE_MASK < 2 ^ 32 :=
    Nat.and_lt_two_pow _ (by norm_num [NOT_LED_VALUE_MASK])
  simp only [LedGlobalConfig.to_raw]
  exact Nat.or_lt_two_pow (Nat.or_lt_two_pow (Nat.or_lt_two_pow
    (Nat.or_lt_two_pow (Nat.or_lt_two_pow (Nat.or_lt_two_pow h0 h1) h2) h3)
    h4) h5) h6

lemma ledGlobal_to_raw_from_raw (v : Nat) (hv : v < 2 ^ 32) :
    LedGlobalConfig.to_raw
      { led_0 := LedConfig.from_raw 0 v
        led_1 := LedConfig.from_raw 1 v
        led_2 := LedConfig.from_raw 2 v
        all_link_activity := v &&& (1 <<< 15) != 0
        blink_interval := intervalOf ((v >>> 18) &&& 3)
        blink_duty_cycle := dutyOf ((v >>> 16) &&& 3)
        unknown := v &&& NOT_LED_VALUE_MASK } = v := by
  apply Nat.eq_of_testBit_eq
  intro i
  rcases Nat.lt_or_ge i 32 with hi | hi
  · interval_cases i <;>
      · simp only [LedGlobalConfig.to_raw, LedConfig.to_raw, LedConfig.from_raw,
          BlinkInterval.to_raw, BlinkDutyCycle.to_raw, toCode_intervalOf_and,
          toCode_dutyOf_and, sel10_eq, sel100_eq, sel1000_eq, selact_eq,
          Nat.one_shiftLeft, Nat.zero_mul, Nat.one_mul, Nat.add_zero,
          Nat.shiftRight_zero, bne_and_two_pow, tb_select, tb_to_bitv,
          land_idem]
        simp [bv_or, bv_and, bv_shiftLeft, bv_shiftRight, bv_ite_or, bv_zero,
          bv_two_pow, bv_three, bv_nmask, bv_toNat, bv_one, bv_ite_one,
          bv_two, bv_four, bv_eight, bv_p12, bv_p13, bv_p14, bv_p15]
  · have hpow : (2 : Nat) ^ 32 ≤ 2 ^ i := Nat.pow_le_pow_right (by norm_num) hi
    rw [Nat.testBit_lt_two_pow (lt_of_lt_of_le (ledGlobal_to_raw_lt _) hpow),
      Nat.testBit_lt_two_pow (lt_of_lt_of_le hv hpow)]

/-! Embedding of `device.rs`.  The USB transport (`rusb::DeviceHandle`) is an
abstract oracle `Usbh`; each register operation returns its result together
with the list of control transfers it issued (a transfer is recorded whenever
the underlying `read_control`/`write_control` call is made, whatever its
outcome).  Bytes are `Nat` values below 256; `u16` casts are modelled with
`% 65536`. -/

def RTL8152_REQT_READ : Nat := 0xc0

def RTL8152_REQT_WRITE : Nat := 0x40

def RTL8152_REQ_REGS : Nat := 0x05

def MCU_TYPE_USB : Nat := 0x0000

def MCU_TYPE_PLA : Nat := 0x0100

def BYTE_EN_DWORD : Nat := 0xff

def BYTE_EN_WORD : Nat := 0x33

def BYTE_EN_BYTE : Nat := 0x11

def CTRL_READ_LIMIT : Nat := 64

def CTRL_WRITE_LIMIT : Nat := 512

def PLA_TCR0 : Nat := 0xe610

def VERSION_MASK : Nat := 0x7cf0

/-- `RegType` from `device.rs`. -/
inductive RegType where
  | usb
  | pla
deriving DecidableEq

/-- `RegType::to_raw`. -/
def RegType.to_raw : RegType → Nat
  | .usb => MCU_TYPE_USB
  | .pla => MCU_TYPE_PLA

/-- Alignment-requirement enum `Align` from `device.rs` (renamed to avoid
clashing with the error constructor). -/
inductive AlignKind where
  | dword
  | word
deriving DecidableEq

/-- `Align::is_aligned`. -/
def AlignKind.is_aligned : AlignKind → Nat → Bool
  | .word, offset => offset % 2 == 0
  | .dword, offset => offset % 4 == 0

/-- `dword_align`: `offset & !3` at the `u16` width. -/
def dword_align (offset : Nat) : Nat := offset &&& 0xfffc

/-- `check_bound`; only the buffer length matters, so it is passed as `len`. -/
def check_bound (offset len : Nat) : Except Err Unit :=
  if !(AlignKind.dword.is_aligned offset) || !(AlignKind.dword.is_aligned len)
  then .error .align
  else if offset + len > 65535 then .error .bound
  else .ok ()

/-- One control transfer as handed to the transport: request type, request,
value (= register offset), index (= register-space selector ORed with the
byte-enable mask), length, and the payload for writes. -/
structure Transfer where
  reqType : Nat
  request : Nat
  value : Nat
  index : Nat
  length : Nat
  data : List Nat
deriving DecidableEq

/-- Abstract USB transport: `readControl` returns the bytes read (its result
length may differ from the requested length, which the device layer reports
as `shortTransfer`), `writeControl` returns the number of bytes written.
Transport failures are opaque `rusb` error codes, wrapped into `Err.usb`. -/
structure Usbh where
  readControl : Nat → Nat → Nat → Nat → Nat → Except Nat (List Nat)
  writeControl : Nat → Nat → Nat → Nat → List Nat → Except Nat Nat

/-- `CtrlDevice::read_reg`: empty-buffer early return, bounds check, then one
control-in transfer whose result length must match the request. -/
def read_reg (h : Usbh) (ty : RegType) (offset byte_mask len : Nat) :
    Except Err (List Nat) × List Transfer :=
  if len = 0 then (.ok [], [])
  else
    match check_bound offset len with
    | .error e => (.error e, [])
    | .ok _ =>
      let tr : Transfer :=
        ⟨RTL8152_REQT_READ, RTL8152_REQ_REGS, offset,
          ty.to_raw ||| byte_mask, len, []⟩
      match h.readControl RTL8152_REQT_READ RTL8152_REQ_REGS offset
          (ty.to_raw ||| byte_mask) len with
      | .error e => (.error (.usb e), [tr])
      | .ok data =>
        if data.length != len then (.error .shortTransfer, [tr])
        else (.ok data, [tr])

/-- `CtrlDevice::write_reg`. -/
def write_reg (h : Usbh) (ty : RegType) (offset byte_mask : Nat)
    (data : List Nat) : Except Err Unit × List Transfer :=
  if data.length = 0 then (.ok (), [])
  else
    match check_bound offset data.length with
    | .error e => (.error e, [])
    | .ok _ =>
      let tr : Transfer :=
        ⟨RTL8152_REQT_WRITE, RTL8152_REQ_REGS, offset,
          ty.to_raw ||| byte_mask, data.length, data⟩
      match h.writeControl RTL8152_REQT_WRITE RTL8152_REQ_REGS offset
          (ty.to_raw ||| byte_mask) data with
      | .error e => (.error (.usb e), [tr])
      | .ok n =>
        if n != data.length then (.error .shortTransfer, [tr])
        else (.ok (), [tr])

/-- Loop body of `CtrlDevice::read`, with an explicit fuel argument (each
iteration consumes at least one byte, so `fuel = len` suffices); the `usize`
cursor is truncated to `u16` at the `read_reg` call, as by the `as` cast. -/
def readLoop (h : Usbh) (ty : RegType) :
    Nat → Nat → Nat → Except Err (List Nat) × List Transfer
  | 0, _, _ => (.ok [], [])
  | fuel + 1, cur, len =>
    if len = 0 then (.ok [], [])
    else
      let chunk := min len CTRL_READ_LIMIT
      match read_reg h ty (cur % 65536) BYTE_EN_DWORD chunk with
      | (.error e, tr) => (.error e, tr)
      | (.ok d, tr) =>
        match readLoop h ty fuel (cur + chunk) (len - chunk) with
        | (.error e, tr2) => (.error e, tr ++ tr2)
        | (.ok rest, tr2) => (.ok (d ++ rest), tr ++ tr2)

/-- `CtrlDevice::read` (bulk read); `len` is the caller's buffer length. -/
def CtrlDevice.read (h : Usbh) (ty : RegType) (offset len : Nat) :
    Except Err (List Nat) × List Transfer :=
  readLoop h ty len offset len

/-- Loop body of `CtrlDevice::write`, with fuel (`fuel = data.length`
suffices). -/
def writeLoop (h : Usbh) (ty : RegType) :
    Nat → Nat → List Nat → Except Err Unit × List Transfer
  | 0, _, _ => (.ok (), [])
  | fuel + 1, cur, data =>
    if data.length = 0 then (.ok (), [])
    else
      let chunk := min data.length CTRL_WRITE_LIMIT
      match write_reg h ty (cur % 65536) BYTE_EN_DWORD (data.take chunk) with
      | (.error e, tr) => (.error e, tr)
      | (.ok _, tr) =>
        match writeLoop h ty fuel (cur + chunk) (data.drop chunk) with
        | (.error e, tr2) => (.error e, tr ++ tr2)
        | (.ok _, tr2) => (.ok (), tr ++ tr2)

/-- `CtrlDevice::write` (bulk write). -/
def CtrlDevice.write (h : Usbh) (ty : RegType) (offset : Nat)
    (data : List Nat) : Except Err Unit × List Transfer :=
  writeLoop h ty data.length offset data

/-- `u32::from_le_bytes` on a 4-byte buffer. -/
def u32_from_le : List Nat → Nat
  | [b0, b1, b2, b3] => b0 + 256 * b1 + 65536 * b2 + 16777216 * b3
  | _ => 0

/-- `u32::to_le_bytes`. -/
def u32_to_le (x : Nat) : List Nat :=
  [x % 256, x / 256 % 256, x / 65536 % 256, x / 16777216 % 256]

/-- `CtrlDevice::read_dword`. -/
def CtrlDevice.read_dword (h : Usbh) (ty : RegType) (offset : Nat) :
    Except Err Nat × List Transfer :=
  match read_reg h ty offset BYTE_EN_DWORD 4 with
  | (.error e, tr) => (.error e, tr)
  | (.ok d, tr) => (.ok (u32_from_le d), tr)

/-- `CtrlDevice::write_dword`. -/
def CtrlDevice.write_dword (h : Usbh) (ty : RegType) (offset value : Nat) :
    Except Err Unit × List Transfer :=
  write_reg h ty offset BYTE_EN_DWORD (u32_to_le value)

/-- `CtrlDevice::read_word`; the `u8` byte-enable shift and the `u16` result
cast are made explicit with `% 256` / `% 65536`. -/
def CtrlDevice.read_word (h : Usbh) (ty : RegType) (offset : Nat) :
    Except Err Nat × List Transfer :=
  if !(AlignKind.word.is_aligned offset) then (.error .align, [])
  else
    let byte_shift := offset &&& 2
    let offset2 := dword_align offset
    let byte_mask := (BYTE_EN_WORD <<< byte_shift) % 256
    match read_reg h ty offset2 byte_mask 4 with
    | (.error e, tr) => (.error e, tr)
    | (.ok d, tr) => (.ok ((u32_from_le d >>> (byte_shift * 8)) % 65536), tr)

/-- `CtrlDevice::write_word`. -/
def CtrlDevice.write_word (h : Usbh) (ty : RegType) (offset value : Nat) :
    Except Err Unit × List Transfer :=
  if !(AlignKind.word.is_aligned offset) then (.error .align, [])
  else
    let byte_shift := offset &&& 2
    let offset2 := dword_align offset
    let byte_mask := (BYTE_EN_WORD <<< byte_shift) % 256
    write_reg h ty offset2 byte_mask (u32_to_le (value <<< (byte_shift * 8)))

/-- `CtrlDevice::read_byte`; note the transfer uses the full dword
byte-enable mask `BYTE_EN_DWORD`, the wanted byte is extracted from the
returned 32-bit lane. -/
def CtrlDevice.read_byte (h : Usbh) (ty : RegType) (offset : Nat) :
    Except Err Nat × List Transfer :=
  let byte_shift := offset &&& 3
  let offset2 := dword_align offset
  match read_reg h ty offset2 BYTE_EN_DWORD 4 with
  | (.error e, tr) => (.error e, tr)
  | (.ok d, tr) => (.ok ((u32_from_le d >>> (byte_shift * 8)) &&& 0xff), tr)

/-- `CtrlDevice::write_byte`; uses the single-byte enable mask shifted by
`offset & 3`. -/
def CtrlDevice.write_byte (h : Usbh) (ty : RegType) (offset value : Nat) :
    Except Err Unit × List Transfer :=
  let byte_shift := offset &&& 3
  let offset2 := dword_align offset
  let byte_mask := (BYTE_EN_BYTE <<< byte_shift) % 256
  write_reg h ty offset2 byte_mask (u32_to_le (value <<< (byte_shift * 8)))

/-- `Version` from `device.rs`. -/
inductive Version where
  | v1
  | v2
  | v3
  | v4
  | v5
  | v6
  | v7
  | v8
  | v9
  | test1
  | v10
  | v11
  | v12
  | v13
  | v14
  | v15
  | unknown (code : Nat)
deriving DecidableEq

/-- `Version::from_raw`. -/
def Version.from_raw (code : Nat) : Version :=
  match code with
  | 0x4c00 => .v1
  | 0x4c10 => .v2
  | 0x5c00 => .v3
  | 0x5c10 => .v4
  | 0x5c20 => .v5
  | 0x5c30 => .v6
  | 0x4800 => .v7
  | 0x6000 => .v8
  | 0x6010 => .v9
  | 0x7010 => .test1
  | 0x7020 => .v10
  | 0x7030 => .v11
  | 0x7400 => .v12
  | 0x7410 => .v13
  | 0x6400 => .v14
  | 0x7420 => .v15
  | c => .unknown c

/-- `CtrlDevice::version`: read PLA_TCR0, shift right 16, mask, classify;
the `as u16` cast is the `% 65536`. -/
def CtrlDevice.version (h : Usbh) : Except Err Version × List Transfer :=
  match CtrlDevice.read_dword h .pla PLA_TCR0 with
  | (.error e, tr) => (.error e, tr)
  | (.ok v, tr) =>
    (.ok (Version.from_raw (((v >>> 16) &&& VERSION_MASK) % 65536)), tr)

/-- `CtrlDevice::new` (the handle construction steps that matter here: the
admission check against the version register). -/
def CtrlDevice.new (h : Usbh) : Except Err Unit × List Transfer :=
  match CtrlDevice.version h with
  | (.error e, tr) => (.error e, tr)
  | (.ok (.unknown _), tr) => (.error .unknownDevice, tr)
  | (.ok _, tr) => (.ok (), tr)

/-- A transport that always succeeds: reads return zero-filled buffers of
the requested length, writes report the full length written.  Used for
witnesses and counterexamples. -/
def okOracle : Usbh where
  readControl := fun _ _ _ _ len => .ok (List.replicate len 0)
  writeControl := fun _ _ _ _ data => .ok data.length

/-! Normal forms and error-classification lemmas for the register layer. -/

lemma check_bound_eq (o len : Nat) :
    check_bound o len =
      if o % 4 ≠ 0 ∨ len % 4 ≠ 0 then .error .align
      else if o + len > 65535 then .error .bound
      else .ok () := by
  unfold check_bound AlignKind.is_aligned
  by_cases h1 : o % 4 = 0 <;> by_cases h2 : len % 4 = 0 <;> simp [h1, h2]

lemma read_reg_eq (h : Usbh) (ty : RegType) (o m len : Nat) :
    read_reg h ty o m len =
      if len = 0 then (.ok [], [])
      else if o % 4 ≠ 0 ∨ len % 4 ≠ 0 then (.error .align, [])
      else if o + len > 65535 then (.error .bound, [])
      else
        let tr : Transfer :=
          ⟨RTL8152_REQT_READ, RTL8152_REQ_REGS, o, ty.to_raw ||| m, len, []⟩
        match h.readControl RTL8152_REQT_READ RTL8152_REQ_REGS o
            (ty.to_raw ||| m) len with
        | .error e => (.error (.usb e), [tr])
        | .ok bs =>
          if bs.length != len then (.error .shortTransfer, [tr])
          else (.ok bs, [tr]) := by
  unfold read_reg
  rw [check_bound_eq]
  by_cases h0 : len = 0
  · simp [h0]
  · by_cases h1 : o % 4 ≠ 0 ∨ len % 4 ≠ 0
    · simp [h0, h1]
    · by_cases h2 : o + len > 65535 <;> simp [h0, h1, h2]

lemma write_reg_eq (h : Usbh) (ty : RegType) (o m : Nat) (data : List Nat) :
    write_reg h ty o m data =
      if data.length = 0 then (.ok (), [])
      else if o % 4 ≠ 0 ∨ data.length % 4 ≠ 0 then (.error .align, [])
      else if o + data.length > 65535 then (.error .bound, [])
      else
        let tr : Transfer :=
          ⟨RTL8152_REQT_WRITE, RTL8152_REQ_REGS, o, ty.to_raw ||| m,
            data.length, data⟩
        match h.writeControl RTL8152_REQT_WRITE RTL8152_REQ_REGS o
            (ty.to_raw ||| m) data with
        | .error e => (.error (.usb e), [tr])
        | .ok n =>
          if n != data.length then (.error .shortTransfer, [tr])
          else (.ok (), [tr]) := by
  unfold write_reg
  rw [check_bound_eq]
  by_cases h0 : data.length = 0
  · simp [h0]
  · by_cases h1 : o % 4 ≠ 0 ∨ data.length % 4 ≠ 0
    · simp [h0, h1]
    · by_cases h2 : o + data.length > 65535 <;> simp [h0, h1, h2]

lemma read_reg_align_iff (h : Usbh) (ty : RegType) (o m len : Nat) :
    ((read_reg h ty o m len).1 = .error .align)
      ↔ (len ≠ 0 ∧ (o % 4 ≠ 0 ∨ len % 4 ≠ 0)) := by
  by_cases h0 : len = 0
  · simp [read_reg_eq, h0]
  · by_cases h1 : o % 4 ≠ 0 ∨ len % 4 ≠ 0
    · simp [read_reg_eq, h0, h1]
    · by_cases h2 : o + len > 65535
      · simp [read_reg_eq, h0, h1, h2]
      · rcases hr : h.readControl RTL8152_REQT_READ RTL8152_REQ_REGS o
            (ty.to_raw ||| m) len with e | bs
        · simp [read_reg_eq, h0, h1, h2, hr]
        · by_cases hl : bs.length != len <;>
            simp [read_reg_eq, h0, h1, h2, hr, hl]

lemma write_reg_align_iff (h : Usbh) (ty : RegType) (o m : Nat)
    (data : List Nat) :
    ((write_reg h ty o m data).1 = .error .align)
      ↔ (data.length ≠ 0 ∧ (o % 4 ≠ 0 ∨ data.length % 4 ≠ 0)) := by
  by_cases h0 : data.length = 0
  · simp [write_reg_eq, h0]
  · by_cases h1 : o % 4 ≠ 0 ∨ data.length % 4 ≠ 0
    · simp [write_reg_eq, h0, h1]
    · by_cases h2 : o + data.length > 65535
      · simp [write_reg_eq, h0, h1, h2]
      · rcases hr : h.writeControl RTL8152_REQT_WRITE RTL8152_REQ_REGS o
            (ty.to_raw ||| m) data with e | n
        · simp [write_reg_eq, h0, h1, h2, hr]
        · by_cases hl : n != data.length <;>
            simp [write_reg_eq, h0, h1, h2, hr, hl]

lemma read_reg_bound_iff (h : Usbh) (ty : RegType) (o m len : Nat)
    (ho : o % 4 = 0) (hlen : len % 4 = 0) :
    ((read_reg h ty o m len).1 = .error .bound)
      ↔ (len ≠ 0 ∧ o + len > 65535) := by
  have h1 : ¬(o % 4 ≠ 0 ∨ len % 4 ≠ 0) := by simp [ho, hlen]
  by_cases h0 : len = 0
  · simp [read_reg_eq, h0]
  · by_cases h2 : o + len > 65535
    · simp [read_reg_eq, h0, h1, h2]
    · rcases hr : h.readControl RTL8152_REQT_READ RTL8152_REQ_REGS o
          (ty.to_raw ||| m) len with e | bs
      · simp [read_reg_eq, h0, h1, h2, hr]
      · by_cases hl : bs.length != len <;>
          simp [read_reg_eq, h0, h1, h2, hr, hl]

lemma write_reg_bound_iff (h : Usbh) (ty : RegType) (o m : Nat)
    (data : List Nat) (ho : o % 4 = 0) (hlen : data.length % 4 = 0) :
    ((write_reg h ty o m data).1 = .error .bound)
      ↔ (data.length ≠ 0 ∧ o + data.length > 65535) := by
  have h1 : ¬(o % 4 ≠ 0 ∨ data.length % 4 ≠ 0) := by simp [ho, hlen]
  by_cases h0 : data.length = 0
  · simp [write_reg_eq, h0]
  · by_cases h2 : o + data.length > 65535
    · simp [write_reg_eq, h0, h1, h2]
    · rcases hr : h.writeControl RTL8152_REQT_WRITE RTL8152_REQ_REGS o
          (ty.to_raw ||| m) data with e | n
      · simp [write_reg_eq, h0, h1, h2, hr]
      · by_cases hl : n != data.length <;>
          simp [write_reg_eq, h0, h1, h2, hr, hl]

lemma read_reg_err_cases (h : Usbh) (ty : RegType) (o m len : Nat) (e : Err)
    (he : (read_reg h ty o m len).1 = .error e) :
    e = .align ∨ e = .bound ∨ e = .shortTransfer ∨ ∃ c, e = .usb c := by
  rw [read_reg_eq] at he
  by_cases h0 : len = 0
  · simp [h0] at he
  · by_cases h1 : o % 4 ≠ 0 ∨ len % 4 ≠ 0
    · simp [h0, h1] at he
      simp [← he]
    · by_cases h2 : o + len > 65535
      · simp [h0, h1, h2] at he
        simp [← he]
      · rcases hr : h.readControl RTL8152_REQT_READ RTL8152_REQ_REGS o
            (ty.to_raw ||| m) len with c | bs
        · simp [h0, h1, h2, hr] at he
          simp [← he]
        · by_cases hl : bs.length != len <;>
            simp [h0, h1, h2, hr, hl] at he
          simp [← he]

lemma write_reg_err_cases (h : Usbh) (ty : RegType) (o m : Nat)
    (data : List Nat) (e : Err)
    (he : (write_reg h ty o m data).1 = .error e) :
    e = .align ∨ e = .bound ∨ e = .shortTransfer ∨ ∃ c, e = .usb c := by
  rw [write_reg_eq] at he
  by_cases h0 : data.length = 0
  · simp [h0] at he
  · by_cases h1 : o % 4 ≠ 0 ∨ data.length % 4 ≠ 0
    · simp [h0, h1] at he
      simp [← he]
    · by_cases h2 : o + data.length > 65535
      · simp [h0, h1, h2] at he
        simp [← he]
      · rcases hr : h.writeControl RTL8152_REQT_WRITE RTL8152_REQ_REGS o
            (ty.to_raw ||| m) data with c | n
        · simp [h0, h1, h2, hr] at he
          simp [← he]
        · by_cases hl : n != data.length <;>
            simp [h0, h1, h2, hr, hl] at he
          simp [← he]

lemma read_reg_trace (h : Usbh) (ty : RegType) (o m len : Nat)
    (ho : o % 4 = 0) (hlen : len % 4 = 0) (h0 : len ≠ 0)
    (h2 : o + len ≤ 65535) :
    (read_reg h ty o m len).2 =
      [⟨RTL8152_REQT_READ, RTL8152_REQ_REGS, o, ty.to_raw ||| m, len, []⟩] := by
  have h1 : ¬(o % 4 ≠ 0 ∨ len % 4 ≠ 0) := by simp [ho, hlen]
  have h2' : ¬ o + len > 65535 := by omega
  rcases hr : h.readControl RTL8152_REQT_READ RTL8152_REQ_REGS o
      (ty.to_raw ||| m) len with e | bs
  · simp [read_reg_eq, h0, h1, h2', hr]
  · by_cases hl : bs.length != len <;>
      simp [read_reg_eq, h0, h1, h2', hr, hl]

lemma write_reg_trace (h : Usbh) (ty : RegType) (o m : Nat) (data : List Nat)
    (ho : o % 4 = 0) (hlen : data.length % 4 = 0) (h0 : data.length ≠ 0)
    (h2 : o + data.length ≤ 65535) :
    (write_reg h ty o m data).2 =
      [⟨RTL8152_REQT_WRITE, RTL8152_REQ_REGS, o, ty.to_raw ||| m,
        data.length, data⟩] := by
  have h1 : ¬(o % 4 ≠ 0 ∨ data.length % 4 ≠ 0) := by simp [ho, hlen]
  have h2' : ¬ o + data.length > 65535 := by omega
  rcases hr : h.writeControl RTL8152_REQT_WRITE RTL8152_REQ_REGS o
      (ty.to_raw ||| m) data with e | n
  · simp [write_reg_eq, h0, h1, h2', hr]
  · by_cases hl : n != data.length <;>
      simp [write_reg_eq, h0, h1, h2', hr, hl]

lemma read_reg_ok (h : Usbh) (ty : RegType) (o m len : Nat) (bs : List Nat)
    (ho : o % 4 = 0) (hlen : len % 4 = 0) (h0 : len ≠ 0)
    (h2 : o + len ≤ 65535)
    (hr : h.readControl RTL8152_REQT_READ RTL8152_REQ_REGS o
      (ty.to_raw ||| m) len = .ok bs)
    (hbs : bs.length = len) :
    (read_reg h ty o m len).1 = .ok bs := by
  have h1 : ¬(o % 4 ≠ 0 ∨ len % 4 ≠ 0) := by simp [ho, hlen]
  have h2' : ¬ o + len > 65535 := by omega
  simp [read_reg_eq, h0, h1, h2', hr, hbs]

/-! Plumbing lemmas relating the fixed-width operations to `read_reg` /
`write_reg`. -/

lemma dword_align_mod4 (o : Nat) : dword_align o % 4 = 0 := by
  have h3 : dword_align o % 4 = dword_align o &&& 3 := by
    rw [show (3 : Nat) = 2 ^ 2 - 1 from rfl, Nat.and_pow_two_sub_one_eq_mod]
  rw [h3]
  unfold dword_align
  rw [Nat.and_assoc, show (0xfffc : Nat) &&& 3 = 0 from by decide, Nat.and_zero]

lemma dword_align_le (o : Nat) : dword_align o ≤ o := Nat.and_le_left

lemma read_reg_not_align (h : Usbh) (ty : RegType) (o m len : Nat)
    (ho : o % 4 = 0) (hlen : len % 4 = 0) :
    (read_reg h ty o m len).1 ≠ .error .align := by
  rw [Ne, read_reg_align_iff]
  simp [ho, hlen]

lemma write_reg_not_align (h : Usbh) (ty : RegType) (o m : Nat)
    (data : List Nat) (ho : o % 4 = 0) (hlen : data.length % 4 = 0) :
    (write_reg h ty o m data).1 ≠ .error .align := by
  rw [Ne, write_reg_align_iff]
  simp [ho, hlen]

lemma u32_to_le_length (x : Nat) : (u32_to_le x).length = 4 := rfl

lemma read_dword_fst (h : Usbh) (ty : RegType) (o : Nat) :
    (CtrlDevice.read_dword h ty o).1 =
      Except.map u32_from_le (read_reg h ty o BYTE_EN_DWORD 4).1 := by
  unfold CtrlDevice.read_dword
  rcases hr : read_reg h ty o BYTE_EN_DWORD 4 with ⟨r, tr⟩
  cases r <;> simp [Except.map]

lemma read_dword_snd (h : Usbh) (ty : RegType) (o : Nat) :
    (CtrlDevice.read_dword h ty o).2 = (read_reg h ty o BYTE_EN_DWORD 4).2 := by
  unfold CtrlDevice.read_dword
  rcases hr : read_reg h ty o BYTE_EN_DWORD 4 with ⟨r, tr⟩
  cases r <;> simp

lemma except_map_error_iff {α β : Type} (f : α → β) (x : Except Err α)
    (e : Err) : (Except.map f x = .error e) ↔ x = .error e := by
  cases x <;> simp [Except.map]

lemma read_word_odd (h : Usbh) (ty : RegType) (o : Nat) (hodd : o % 2 ≠ 0) :
    CtrlDevice.read_word h ty o = (.error .align, []) := by
  unfold CtrlDevice.read_word
  simp [AlignKind.is_aligned, hodd]

lemma read_word_even (h : Usbh) (ty : RegType) (o : Nat) (he : o % 2 = 0) :
    CtrlDevice.read_word h ty o =
      (match read_reg h ty (dword_align o)
          ((BYTE_EN_WORD <<< (o &&& 2)) % 256) 4 with
       | (.error e, tr) => (.error e, tr)
       | (.ok d, tr) =>
         (.ok ((u32_from_le d >>> ((o &&& 2) * 8)) % 65536), tr)) := by
  unfold CtrlDevice.read_word
  simp [AlignKind.is_aligned, he]

lemma write_word_odd (h : Usbh) (ty : RegType) (o w : Nat)
    (hodd : o % 2 ≠ 0) :
    CtrlDevice.write_word h ty o w = (.error .align, []) := by
  unfold CtrlDevice.write_word
  simp [AlignKind.is_aligned, hodd]

lemma write_word_even (h : Usbh) (ty : RegType) (o w : Nat) (he : o % 2 = 0) :
    CtrlDevice.write_word h ty o w =
      write_reg h ty (dword_align o) ((BYTE_EN_WORD <<< (o &&& 2)) % 256)
        (u32_to_le (w <<< ((o &&& 2) * 8))) := by
  unfold CtrlDevice.write_word
  simp [AlignKind.is_aligned, he]

lemma read_byte_eq (h : Usbh) (ty : RegType) (o : Nat) :
    CtrlDevice.read_byte h ty o =
      (match read_reg h ty (dword_align o) BYTE_EN_DWORD 4 with
       | (.error e, tr) => (.error e, tr)
       | (.ok d, tr) =>
         (.ok ((u32_from_le d >>> ((o &&& 3) * 8)) &&& 0xff), tr)) := rfl

lemma write_byte_eq (h : Usbh) (ty : RegType) (o w : Nat) :
    CtrlDevice.write_byte h ty o w =
      write_reg h ty (dword_align o) ((BYTE_EN_BYTE <<< (o &&& 3)) % 256)
        (u32_to_le (w <<< ((o &&& 3) * 8))) := rfl

lemma read_reg_fffc (h : Usbh) (ty : RegType) (m : Nat) :
    read_reg h ty 0xfffc m 4 = (.error .bound, []) := by
  rw [read_reg_eq]
  norm_num

lemma write_reg_fffc (h : Usbh) (ty : RegType) (m : Nat) (data : List Nat)
    (hlen : data.length = 4) :
    write_reg h ty 0xfffc m data = (.error .bound, []) := by
  rw [write_reg_eq, hlen]
  norm_num

/-- C1: for every 32-bit value `v`, encoding the decoded LED configuration
reproduces `v` exactly, `LedGlobalConfig.to_raw (LedGlobalConfig.from_raw v)
= v`, including the residue bits 20..31, which pass through unchanged. -/
theorem C1_led_roundtrip (v : Nat) (hv : v < 2 ^ 32) :
    (LedGlobalConfig.from_raw v).map LedGlobalConfig.to_raw = some v := by
  rw [ledGlobal_from_raw_eq]
  simp only [Option.map_some']
  rw [ledGlobal_to_raw_from_raw v hv]

/-- C1 witness: the round trip evaluated at the concrete value 0x00050001. -/
theorem C1_led_roundtrip_witness :
    (0x00050001 : Nat) < 2 ^ 32 ∧
    (LedGlobalConfig.from_raw 0x00050001).map LedGlobalConfig.to_raw
      = some 0x00050001 :=
  ⟨by norm_num, C1_led_roundtrip 0x00050001 (by norm_num)⟩

/-- C7: `BlinkInterval.from_num` and `BlinkDutyCycle.from_num` succeed
exactly on 0, 1, 2, 3 — mapping them to 240ms/160ms/80ms/link-dependent
resp. 12.5%/25%/50%/75% — and fail with `Err.parse` on every other input
(every `n + 4`). -/
theorem C7_from_num_domain :
    BlinkInterval.from_num 0 = .ok .i240 ∧
    BlinkInterval.from_num 1 = .ok .i160 ∧
    BlinkInterval.from_num 2 = .ok .i80 ∧
    BlinkInterval.from_num 3 = .ok .iLink ∧
    (∀ n : Nat, BlinkInterval.from_num (n + 4) = .error .parse) ∧
    BlinkDutyCycle.from_num 0 = .ok .r12_5 ∧
    BlinkDutyCycle.from_num 1 = .ok .r25 ∧
    BlinkDutyCycle.from_num 2 = .ok .r50 ∧
    BlinkDutyCycle.from_num 3 = .ok .r75 ∧
    (∀ n : Nat, BlinkDutyCycle.from_num (n + 4) = .error .parse) :=
  ⟨rfl, rfl, rfl, rfl, fun _ => rfl, rfl, rfl, rfl, rfl, fun _ => rfl⟩

/-- C9: LED decoding is total over `u32`: the extracted 2-bit fields are
always in the accepted domain of `from_num`, so the `unwrap` calls never
panic (`isSome` of the `Option`-modelled decoders) and
`LedGlobalConfig.from_raw` succeeds on every input. -/
theorem C9_led_decode_total (v : Nat) (_hv : v < 2 ^ 32) :
    (v >>> 18) &&& 0b11 < 4 ∧ (v >>> 16) &&& 0b11 < 4 ∧
    (BlinkInterval.from_raw v).isSome ∧
    (BlinkDutyCycle.from_raw v).isSome ∧
    (LedGlobalConfig.from_raw v).isSome := by
  refine ⟨and_three_lt _, and_three_lt _, ?_, ?_, ?_⟩ <;>
    simp [bi_from_raw_eq, bd_from_raw_eq, ledGlobal_from_raw_eq]

/-- C9 witness: totality evaluated at the all-ones 32-bit value. -/
theorem C9_led_decode_total_witness :
    (0xffffffff : Nat) < 2 ^ 32 ∧
    (LedGlobalConfig.from_raw 0xffffffff).isSome :=
  ⟨by norm_num, (C9_led_decode_total 0xffffffff (by norm_num)).2.2.2.2⟩

/-- C8: for every register space and offset, a zero-length bulk read or
write succeeds and issues no transport transfer. -/
theorem C8_zero_length_noop (h : Usbh) (ty : RegType) (o : Nat) :
    CtrlDevice.read h ty o 0 = (.ok [], []) ∧
    CtrlDevice.write h ty o [] = (.ok (), []) :=
  ⟨rfl, rfl⟩

/-- C6: for every register space and offset, `read_word`/`write_word` fail
with `Align` iff the offset is odd, `read_dword`/`write_dword` fail with
`Align` iff the offset is not a multiple of 4, and `read_byte`/`write_byte`
never fail with `Align`. -/
theorem C6_fixed_width_align (h : Usbh) (ty : RegType) (o w : Nat) :
    (((CtrlDevice.read_word h ty o).1 = .error .align) ↔ o % 2 ≠ 0) ∧
    (((CtrlDevice.write_word h ty o w).1 = .error .align) ↔ o % 2 ≠ 0) ∧
    (((CtrlDevice.read_dword h ty o).1 = .error .align) ↔ o % 4 ≠ 0) ∧
    (((CtrlDevice.write_dword h ty o w).1 = .error .align) ↔ o % 4 ≠ 0) ∧
    ((CtrlDevice.read_byte h ty o).1 ≠ .error .align) ∧
    ((CtrlDevice.write_byte h ty o w).1 ≠ .error .align) := by
  refine ⟨?_, ?_, ?_, ?_, ?_, ?_⟩
  · by_cases he : o % 2 = 0
    · rw [read_word_even h ty o he]
      have hna := read_reg_not_align h ty (dword_align o)
        ((BYTE_EN_WORD <<< (o &&& 2)) % 256) 4 (dword_align_mod4 o)
        (by norm_num)
      rcases hr : read_reg h ty (dword_align o)
          ((BYTE_EN_WORD <<< (o &&& 2)) % 256) 4 with ⟨r, tr⟩
      rw [hr] at hna
      cases r <;> simp_all
    · rw [read_word_odd h ty o he]
      simp [he]
  · by_cases he : o % 2 = 0
    · rw [write_word_even h ty o w he]
      have hna := write_reg_not_align h ty (dword_align o)
        ((BYTE_EN_WORD <<< (o &&& 2)) % 256)
        (u32_to_le (w <<< ((o &&& 2) * 8))) (dword_align_mod4 o)
        (by rw [u32_to_le_length])
      simp_all
    · rw [write_word_odd h ty o w he]
      simp [he]
  · rw [read_dword_fst, except_map_error_iff, read_reg_align_iff]
    norm_num
  · unfold CtrlDevice.write_dword
    rw [write_reg_align_iff, u32_to_le_length]
    norm_num
  · rw [read_byte_eq]
    have hna := read_reg_not_align h ty (dword_align o) BYTE_EN_DWORD 4
      (dword_align_mod4 o) (by norm_num)
    rcases hr : read_reg h ty (dword_align o) BYTE_EN_DWORD 4 with ⟨r, tr⟩
    rw [hr] at hna
    cases r <;> simp_all
  · rw [write_byte_eq]
    exact write_reg_not_align h ty (dword_align o)
      ((BYTE_EN_BYTE <<< (o &&& 3)) % 256)
      (u32_to_le (w <<< ((o &&& 3) * 8))) (dword_align_mod4 o)
      (by rw [u32_to_le_length])

/-- C10: every fixed-width access whose dword-aligned lane is 0xfffc fails
with `Bound` (the widened 4-byte transfer would end at 65536): dword ops at
0xfffc, word ops at 0xfffc and 0xfffe, byte ops at 0xfffc..0xffff. -/
theorem C10_last_lane_bound (h : Usbh) (ty : RegType) (w : Nat) :
    (CtrlDevice.read_dword h ty 0xfffc).1 = .error .bound ∧
    (CtrlDevice.write_dword h ty 0xfffc w).1 = .error .bound ∧
    (CtrlDevice.read_word h ty 0xfffc).1 = .error .bound ∧
    (CtrlDevice.read_word h ty 0xfffe).1 = .error .bound ∧
    (CtrlDevice.write_word h ty 0xfffc w).1 = .error .bound ∧
    (CtrlDevice.write_word h ty 0xfffe w).1 = .error .bound ∧
    (CtrlDevice.read_byte h ty 0xfffc).1 = .error .bound ∧
    (CtrlDevice.read_byte h ty 0xfffd).1 = .error .bound ∧
    (CtrlDevice.read_byte h ty 0xfffe).1 = .error .bound ∧
    (CtrlDevice.read_byte h ty 0xffff).1 = .error .bound ∧
    (CtrlDevice.write_byte h ty 0xfffc w).1 = .error .bound ∧
    (CtrlDevice.write_byte h ty 0xfffd w).1 = .error .bound ∧
    (CtrlDevice.write_byte h ty 0xfffe w).1 = .error .bound ∧
    (CtrlDevice.write_byte h ty 0xffff w).1 = .error .bound := by
  refine ⟨?_, ?_, ?_, ?_, ?_, ?_, ?_, ?_, ?_, ?_, ?_, ?_, ?_, ?_⟩
  · rw [read_dword_fst, read_reg_fffc]
    rfl
  · unfold CtrlDevice.write_dword
    rw [write_reg_fffc h ty _ _ (u32_to_le_length _)]
  · rw [read_word_even h ty 0xfffc (by norm_num),
      show dword_align 0xfffc = 0xfffc from by decide, read_reg_fffc]
  · rw [read_word_even h ty 0xfffe (by norm_num),
      show dword_align 0xfffe = 0xfffc from by decide, read_reg_fffc]
  · rw [write_word_even h ty 0xfffc w (by norm_num),
      show dword_align 0xfffc = 0xfffc from by decide,
      write_reg_fffc h ty _ _ (u32_to_le_length _)]
  · rw [write_word_even h ty 0xfffe w (by norm_num),
      show dword_align 0xfffe = 0xfffc from by decide,
      write_reg_fffc h ty _ _ (u32_to_le_length _)]
  · rw [read_byte_eq, show dword_align 0xfffc = 0xfffc from by decide,
      read_reg_fffc]
  · rw [read_byte_eq, show dword_align 0xfffd = 0xfffc from by decide,
      read_reg_fffc]
  · rw [read_byte_eq, show dword_align 0xfffe = 0xfffc from by decide,
      read_reg_fffc]
  · rw [read_byte_eq, show dword_align 0xffff = 0xfffc from by decide,
      read_reg_fffc]
  · rw [write_byte_eq, show dword_align 0xfffc = 0xfffc from by decide,
      write_reg_fffc h ty _ _ (u32_to_le_length _)]
  · rw [write_byte_eq, show dword_align 0xfffd = 0xfffc from by decide,
      write_reg_fffc h ty _ _ (u32_to_le_length _)]
  · rw [write_byte_eq, show dword_align 0xfffe = 0xfffc from by decide,
      write_reg_fffc h ty _ _ (u32_to_le_length _)]
  · rw [write_byte_eq, show dword_align 0xffff = 0xfffc from by decide,
      write_reg_fffc h ty _ _ (u32_to_le_length _)]

/-! Lemmas for C2: transfers issued by the byte-width accessors. -/

lemma read_byte_snd (h : Usbh) (ty : RegType) (o : Nat) :
    (CtrlDevice.read_byte h ty o).2 =
      (read_reg h ty (dword_align o) BYTE_EN_DWORD 4).2 := by
  rw [read_byte_eq]
  rcases hr : read_reg h ty (dword_align o) BYTE_EN_DWORD 4 with ⟨r, tr⟩
  cases r <;> simp

lemma dword_align_bound (o : Nat) (ho : o < 0xfffc) :
    dword_align o + 4 ≤ 65535 := by
  have h1 := dword_align_le o
  have h2 := dword_align_mod4 o
  omega

/-- C2 counterexample: at offset 1, `read_byte` issues a transfer whose
byte-enable index is the full dword mask 0xff, not the claimed single-byte
mask `0x11 <<< (1 &&& 3) = 0x22`. -/
theorem C2_read_byte_mask_counterexample :
    (CtrlDevice.read_byte okOracle .usb 1).2 =
      [⟨RTL8152_REQT_READ, RTL8152_REQ_REGS, 0,
        RegType.usb.to_raw ||| 0xff, 4, []⟩] ∧
    RegType.usb.to_raw ||| 0xff ≠
      RegType.usb.to_raw ||| ((BYTE_EN_BYTE <<< (1 &&& 3)) % 256) := by
  constructor
  · rw [read_byte_snd, show dword_align 1 = 0 from by decide]
    exact read_reg_trace okOracle .usb 0 BYTE_EN_DWORD 4 (by norm_num)
      (by norm_num) (by norm_num) (by norm_num)
  · decide

/-- C2 (amended): `write_byte` issues one transfer with the single-byte
enable mask `0x11 <<< (offset &&& 3)` on the dword-aligned offset, with its
byte inserted at the corresponding position of the 32-bit lane; `read_byte`
issues one transfer with the full dword mask `0xff` on the dword-aligned
offset and extracts the addressed byte from the returned lane. -/
theorem C2_byte_access_transfers (h : Usbh) (ty : RegType) (o w : Nat)
    (ho : o < 0xfffc) :
    ((CtrlDevice.write_byte h ty o w).2 =
      [⟨RTL8152_REQT_WRITE, RTL8152_REQ_REGS, dword_align o,
        ty.to_raw ||| ((BYTE_EN_BYTE <<< (o &&& 3)) % 256), 4,
        u32_to_le (w <<< ((o &&& 3) * 8))⟩]) ∧
    ((CtrlDevice.read_byte h ty o).2 =
      [⟨RTL8152_REQT_READ, RTL8152_REQ_REGS, dword_align o,
        ty.to_raw ||| BYTE_EN_DWORD, 4, []⟩]) ∧
    (∀ bs : List Nat,
      h.readControl RTL8152_REQT_READ RTL8152_REQ_REGS (dword_align o)
          (ty.to_raw ||| BYTE_EN_DWORD) 4 = .ok bs → bs.length = 4 →
      (CtrlDevice.read_byte h ty o).1 =
        .ok ((u32_from_le bs >>> ((o &&& 3) * 8)) &&& 0xff)) := by
  refine ⟨?_, ?_, ?_⟩
  · rw [write_byte_eq]
    rw [write_reg_trace h ty (dword_align o) _ _ (dword_align_mod4 o)
      (by rw [u32_to_le_length]) (by rw [u32_to_le_length]; norm_num)
      (by rw [u32_to_le_length]; exact dword_align_bound o ho)]
    rw [u32_to_le_length]
  · rw [read_byte_snd]
    exact read_reg_trace h ty (dword_align o) BYTE_EN_DWORD 4
      (dword_align_mod4 o) (by norm_num) (by norm_num)
      (dword_align_bound o ho)
  · intro bs hr hbs
    rw [read_byte_eq]
    have hok := read_reg_ok h ty (dword_align o) BYTE_EN_DWORD 4 bs
      (dword_align_mod4 o) (by norm_num) (by norm_num)
      (dword_align_bound o ho) hr hbs
    rcases hrr : read_reg h ty (dword_align o) BYTE_EN_DWORD 4 with ⟨r, tr⟩
    rw [hrr] at hok
    cases r <;> simp_all

/-- C2 witness: the amended transfer shapes evaluated at offset 5 with
byte 0xab on the always-succeeding transport. -/
theorem C2_byte_access_transfers_witness :
    (5 : Nat) < 0xfffc ∧
    ((CtrlDevice.write_byte okOracle .usb 5 0xab).2 =
      [⟨RTL8152_REQT_WRITE, RTL8152_REQ_REGS, dword_align 5,
        RegType.usb.to_raw ||| ((BYTE_EN_BYTE <<< (5 &&& 3)) % 256), 4,
        u32_to_le (0xab <<< ((5 &&& 3) * 8))⟩]) ∧
    ((CtrlDevice.read_byte okOracle .usb 5).1 =
      .ok ((u32_from_le [0, 0, 0, 0] >>> ((5 &&& 3) * 8)) &&& 0xff)) :=
  ⟨by norm_num, (C2_byte_access_transfers okOracle .usb 5 0xab (by norm_num)).1,
    (C2_byte_access_transfers okOracle .usb 5 0xab (by norm_num)).2.2
      [0, 0, 0, 0] rfl rfl⟩

/-! Lemmas for C3: version identification. -/

/-- The version codes with a named classification in `Version::from_raw`. -/
def knownCodes : List Nat :=
  [0x4c00, 0x4c10, 0x5c00, 0x5c10, 0x5c20, 0x5c30, 0x4800, 0x6000, 0x6010,
    0x7010, 0x7020, 0x7030, 0x7400, 0x7410, 0x6400, 0x7420]

/-- Whether a classification is a named revision (not `unknown`). -/
def isKnown : Version → Bool
  | .unknown _ => false
  | _ => true

lemma from_raw_eq_unknown (code : Nat) (hc : code ∉ knownCodes) :
    Version.from_raw code = .unknown code := by
  unfold Version.from_raw
  split
  case _ => exact absurd (by decide) hc
  case _ => exact absurd (by decide) hc
  case _ => exact absurd (by decide) hc
  case _ => exact absurd (by decide) hc
  case _ => exact absurd (by decide) hc
  case _ => exact absurd (by decide) hc
  case _ => exact absurd (by decide) hc
  case _ => exact absurd (by decide) hc
  case _ => exact absurd (by decide) hc
  case _ => exact absurd (by decide) hc
  case _ => exact absurd (by decide) hc
  case _ => exact absurd (by decide) hc
  case _ => exact absurd (by decide) hc
  case _ => exact absurd (by decide) hc
  case _ => exact absurd (by decide) hc
  case _ => exact absurd (by decide) hc
  case _ => rfl

lemma from_raw_known (code : Nat) (hc : code ∈ knownCodes) :
    isKnown (Version.from_raw code) = true := by
  simp [knownCodes] at hc
  rcases hc with h | h | h | h | h | h | h | h | h | h | h | h | h | h | h | h
    <;> subst h <;> decide

lemma version_snd (h : Usbh) :
    (CtrlDevice.version h).2 = (CtrlDevice.read_dword h .pla PLA_TCR0).2 := by
  unfold CtrlDevice.version
  rcases hv : CtrlDevice.read_dword h .pla PLA_TCR0 with ⟨r, tr⟩
  cases r <;> simp

lemma version_err_cases (h : Usbh) (e : Err)
    (he : (CtrlDevice.version h).1 = .error e) :
    e = .align ∨ e = .bound ∨ e = .shortTransfer ∨ ∃ c, e = .usb c := by
  have hfst : (CtrlDevice.read_dword h .pla PLA_TCR0).1 = .error e := by
    unfold CtrlDevice.version at he
    rcases hv : CtrlDevice.read_dword h .pla PLA_TCR0 with ⟨r, tr⟩
    rw [hv] at he
    cases r with
    | error e2 =>
      simp at he
      simp [he]
    | ok v => simp at he
  rw [read_dword_fst, except_map_error_iff] at hfst
  exact read_reg_err_cases h .pla PLA_TCR0 BYTE_EN_DWORD 4 e hfst

/-- C3 counterexample: the static table contains 16 pairwise-distinct known
revision codes, not 15 — all 16 classify to a named (non-`unknown`)
revision. -/
theorem C3_sixteen_codes_counterexample :
    knownCodes.Nodup ∧ knownCodes.length = 16 ∧
    knownCodes.all (fun c => isKnown (Version.from_raw c)) = true := by
  refine ⟨by decide, rfl, by decide⟩

/-- C3 (amended): version identification reads register 0xe610 through
`read_dword` with the `Pla` space, right-shifts by 16, masks with 0x7cf0 and
classifies against the static table of exactly 16 known revisions; any other
code maps to `unknown` carrying the raw code, and handle construction fails
with `UnknownDevice` iff identification yields `unknown`. -/
theorem C3_version_identification (h : Usbh) :
    ((CtrlDevice.version h).2 =
      [⟨RTL8152_REQT_READ, RTL8152_REQ_REGS, PLA_TCR0,
        RegType.pla.to_raw ||| BYTE_EN_DWORD, 4, []⟩]) ∧
    (∀ v : Nat, (CtrlDevice.read_dword h .pla PLA_TCR0).1 = .ok v →
      (CtrlDevice.version h).1 =
        .ok (Version.from_raw ((v >>> 16) &&& VERSION_MASK))) ∧
    (∀ code : Nat,
      (Version.from_raw code = .unknown code ↔ code ∉ knownCodes)) ∧
    (((CtrlDevice.new h).1 = .error .unknownDevice) ↔
      (∃ c, (CtrlDevice.version h).1 = .ok (.unknown c))) := by
  refine ⟨?_, ?_, ?_, ?_⟩
  · rw [version_snd, read_dword_snd]
    exact read_reg_trace h .pla PLA_TCR0 BYTE_EN_DWORD 4
      (by norm_num [PLA_TCR0]) (by norm_num) (by norm_num)
      (by norm_num [PLA_TCR0])
  · intro v hvok
    have hmod : ((v >>> 16) &&& VERSION_MASK) % 65536
        = (v >>> 16) &&& VERSION_MASK :=
      Nat.mod_eq_of_lt (lt_of_le_of_lt Nat.and_le_right
        (by norm_num [VERSION_MASK]))
    unfold CtrlDevice.version
    rcases hv : CtrlDevice.read_dword h .pla PLA_TCR0 with ⟨r, tr⟩
    rw [hv] at hvok
    cases r with
    | error e => simp at hvok
    | ok v2 =>
      simp at hvok
      subst hvok
      simp [hmod]
  · intro code
    constructor
    · intro he hc
      have hk := from_raw_known code hc
      rw [he] at hk
      simp [isKnown] at hk
    · exact from_raw_eq_unknown code
  · unfold CtrlDevice.new
    rcases hv : CtrlDevice.version h with ⟨r, tr⟩
    cases r with
    | error e =>
      have hne : e ≠ .unknownDevice := by
        have := version_err_cases h e (by rw [hv])
        rcases this with h1 | h1 | h1 | ⟨c, h1⟩ <;> subst h1 <;> simp
      simp only []
      constructor
      · intro hee
        simp at hee
        exact absurd hee hne
      · rintro ⟨c, hc⟩
        simp at hc
    | ok ver =>
      cases ver <;> simp

/-- C3 witness: on the all-zero transport the version register reads 0,
code 0 is not in the table, so construction fails with `UnknownDevice`. -/
theorem C3_version_identification_witness :
    (CtrlDevice.version okOracle).1 =
      .ok (Version.from_raw ((0 >>> 16) &&& VERSION_MASK)) ∧
    (Version.from_raw 0 = .unknown 0 ↔ (0 : Nat) ∉ knownCodes) ∧
    (((CtrlDevice.new okOracle).1 = .error .unknownDevice) ↔
      (∃ c, (CtrlDevice.version okOracle).1 = .ok (.unknown c))) :=
  ⟨(C3_version_identification okOracle).2.1 0 (by rfl),
    (C3_version_identification okOracle).2.2.1 0,
    (C3_version_identification okOracle).2.2.2⟩

/-! Loop lemmas for the bulk operations (C4, C5). -/

lemma readLoop_zero_len (h : Usbh) (ty : RegType) (fuel cur : Nat) :
    readLoop h ty fuel cur 0 = (.ok [], []) := by
  cases fuel <;> rfl

lemma writeLoop_nil (h : Usbh) (ty : RegType) (fuel cur : Nat) :
    writeLoop h ty fuel cur [] = (.ok (), []) := by
  cases fuel <;> rfl

lemma read_single_chunk (h : Usbh) (ty : RegType) (o len : Nat)
    (h0 : len ≠ 0) (hle : len ≤ CTRL_READ_LIMIT) (ho : o < 65536) :
    CtrlDevice.read h ty o len = read_reg h ty o BYTE_EN_DWORD len := by
  rcases len with _ | l
  · exact absurd rfl h0
  · unfold CtrlDevice.read
    simp only [readLoop]
    have hmin : min (l + 1) CTRL_READ_LIMIT = l + 1 := Nat.min_eq_left hle
    have hmod : o % 65536 = o := Nat.mod_eq_of_lt ho
    simp only [hmin, hmod, if_neg (Nat.succ_ne_zero l), Nat.sub_self,
      readLoop_zero_len]
    rcases hr : read_reg h ty o BYTE_EN_DWORD (l + 1) with ⟨r, tr⟩
    cases r <;> simp

lemma write_single_chunk (h : Usbh) (ty : RegType) (o : Nat)
    (data : List Nat) (h0 : data ≠ []) (hle : data.length ≤ CTRL_WRITE_LIMIT)
    (ho : o < 65536) :
    CtrlDevice.write h ty o data = write_reg h ty o BYTE_EN_DWORD data := by
  rcases data with _ | ⟨b, bs⟩
  · exact absurd rfl h0
  · unfold CtrlDevice.write
    rw [show (b :: bs).length = bs.length + 1 from rfl]
    simp only [writeLoop]
    have hmin : min (b :: bs).length CTRL_WRITE_LIMIT = (b :: bs).length :=
      Nat.min_eq_left hle
    have hmod : o % 65536 = o := Nat.mod_eq_of_lt ho
    simp only [show bs.length + 1 = (b :: bs).length from rfl, hmin, hmod,
      if_neg (show ¬(b :: bs).length = 0 by simp), List.take_length,
      List.drop_length, writeLoop_nil]
    rcases hr : write_reg h ty o BYTE_EN_DWORD (b :: bs) with ⟨r, tr⟩
    cases r <;> simp [hr]

lemma readLoop_step (h : Usbh) (ty : RegType) (fuel cur len : Nat)
    (h0 : len ≠ 0) :
    readLoop h ty (fuel + 1) cur len =
      match read_reg h ty (cur % 65536) BYTE_EN_DWORD
          (min len CTRL_READ_LIMIT) with
      | (.error e, tr) => (.error e, tr)
      | (.ok d, tr) =>
        match readLoop h ty fuel (cur + min len CTRL_READ_LIMIT)
            (len - min len CTRL_READ_LIMIT) with
        | (.error e, tr2) => (.error e, tr ++ tr2)
        | (.ok rest, tr2) => (.ok (d ++ rest), tr ++ tr2) := by
  simp only [readLoop]
  rw [if_neg h0]

lemma read_step (h : Usbh) (ty : RegType) (o len : Nat) (h0 : len ≠ 0) :
    CtrlDevice.read h ty o len =
      match read_reg h ty (o % 65536) BYTE_EN_DWORD
          (min len CTRL_READ_LIMIT) with
      | (.error e, tr) => (.error e, tr)
      | (.ok d, tr) =>
        match readLoop h ty (len - 1) (o + min len CTRL_READ_LIMIT)
            (len - min len CTRL_READ_LIMIT) with
        | (.error e, tr2) => (.error e, tr ++ tr2)
        | (.ok rest, tr2) => (.ok (d ++ rest), tr ++ tr2) := by
  rcases len with _ | l
  · exact absurd rfl h0
  · show readLoop h ty (l + 1) o (l + 1) = _
    rw [readLoop_step h ty l o (l + 1) (Nat.succ_ne_zero l)]
    exact rfl

lemma writeLoop_step (h : Usbh) (ty : RegType) (fuel cur : Nat)
    (data : List Nat) (h0 : data ≠ []) :
    writeLoop h ty (fuel + 1) cur data =
      match write_reg h ty (cur % 65536) BYTE_EN_DWORD
          (data.take (min data.length CTRL_WRITE_LIMIT)) with
      | (.error e, tr) => (.error e, tr)
      | (.ok _, tr) =>
        match writeLoop h ty fuel (cur + min data.length CTRL_WRITE_LIMIT)
            (data.drop (min data.length CTRL_WRITE_LIMIT)) with
        | (.error e, tr2) => (.error e, tr ++ tr2)
        | (.ok _, tr2) => (.ok (), tr ++ tr2) := by
  simp only [writeLoop]
  rw [if_neg (show ¬data.length = 0 by simpa using h0)]

lemma write_step (h : Usbh) (ty : RegType) (o : Nat) (data : List Nat)
    (h0 : data ≠ []) :
    CtrlDevice.write h ty o data =
      match write_reg h ty (o % 65536) BYTE_EN_DWORD
          (data.take (min data.length CTRL_WRITE_LIMIT)) with
      | (.error e, tr) => (.error e, tr)
      | (.ok _, tr) =>
        match writeLoop h ty (data.length - 1)
            (o + min data.length CTRL_WRITE_LIMIT)
            (data.drop (min data.length CTRL_WRITE_LIMIT)) with
        | (.error e, tr2) => (.error e, tr ++ tr2)
        | (.ok _, tr2) => (.ok (), tr ++ tr2) := by
  rcases data with _ | ⟨b, bs⟩
  · exact absurd rfl h0
  · show writeLoop h ty (bs.length + 1) o (b :: bs) = _
    rw [writeLoop_step h ty bs.length o (b :: bs) (by simp)]
    rfl

/-- C4 counterexample: a zero-length write at the misaligned offset 1
succeeds, while the claim's iff requires it to fail with `Align`. -/
theorem C4_zero_length_counterexample :
    ¬ (((CtrlDevice.write okOracle .usb 1 []).1 = .error .align) ↔
        ((1 : Nat) % 4 ≠ 0 ∨ (List.length ([] : List Nat)) % 4 ≠ 0)) := by
  intro hiff
  have h1 := hiff.mpr (by norm_num)
  have h2 : (CtrlDevice.write okOracle .usb 1 []).1 = .ok () := rfl
  rw [h2] at h1
  exact Except.noConfusion h1

/-- C4 (amended): a zero-length bulk operation always succeeds; for a
non-empty single-chunk operation (length within the per-direction limit) at
a `u16` offset, the result is `Align` iff the offset or the length is not
dword-aligned, and — when both are aligned — `Bound` iff offset + length
exceeds 65535.  (Multi-chunk requests are validated chunk by chunk.) -/
theorem C4_bulk_rejection (h : Usbh) (ty : RegType) (o len : Nat)
    (data : List Nat) (ho : o < 65536) :
    (CtrlDevice.write h ty o [] = (.ok (), []) ∧
      CtrlDevice.read h ty o 0 = (.ok [], [])) ∧
    (data ≠ [] → data.length ≤ CTRL_WRITE_LIMIT →
      ((((CtrlDevice.write h ty o data).1 = .error .align) ↔
          (o % 4 ≠ 0 ∨ data.length % 4 ≠ 0)) ∧
        (o % 4 = 0 → data.length % 4 = 0 →
          (((CtrlDevice.write h ty o data).1 = .error .bound) ↔
            o + data.length > 65535)))) ∧
    (len ≠ 0 → len ≤ CTRL_READ_LIMIT →
      ((((CtrlDevice.read h ty o len).1 = .error .align) ↔
          (o % 4 ≠ 0 ∨ len % 4 ≠ 0)) ∧
        (o % 4 = 0 → len % 4 = 0 →
          (((CtrlDevice.read h ty o len).1 = .error .bound) ↔
            o + len > 65535)))) := by
  refine ⟨⟨rfl, rfl⟩, ?_, ?_⟩
  · intro hne hle
    have hlen0 : data.length ≠ 0 := by
      simpa using hne
    rw [write_single_chunk h ty o data hne hle ho]
    refine ⟨?_, ?_⟩
    · rw [write_reg_align_iff]
      simp [hlen0]
    · intro ho4 hl4
      rw [write_reg_bound_iff h ty o BYTE_EN_DWORD data ho4 hl4]
      simp [hlen0]
  · intro hne hle
    rw [read_single_chunk h ty o len hne hle ho]
    refine ⟨?_, ?_⟩
    · rw [read_reg_align_iff]
      simp [hne]
    · intro ho4 hl4
      rw [read_reg_bound_iff h ty o BYTE_EN_DWORD len ho4 hl4]
      simp [hne]

/-- C4 witness: the amended characterization at offset 3 with a 3-byte
write and a 2-byte read on the always-succeeding transport. -/
theorem C4_bulk_rejection_witness :
    (CtrlDevice.write okOracle .usb 3 [] = (.ok (), [])) ∧
    (((CtrlDevice.write okOracle .usb 3 [0, 0, 0]).1 = .error .align) ↔
      ((3 : Nat) % 4 ≠ 0 ∨ ([0, 0, 0] : List Nat).length % 4 ≠ 0)) ∧
    (((CtrlDevice.read okOracle .usb 3 2).1 = .error .align) ↔
      ((3 : Nat) % 4 ≠ 0 ∨ (2 : Nat) % 4 ≠ 0)) ∧
    (((CtrlDevice.read okOracle .usb 0xffc0 64).1 = .error .bound) ↔
      (0xffc0 : Nat) + 64 > 65535) :=
  ⟨(C4_bulk_rejection okOracle .usb 3 2 [0, 0, 0] (by norm_num)).1.1,
    ((C4_bulk_rejection okOracle .usb 3 2 [0, 0, 0] (by norm_num)).2.1
      (by simp) (by norm_num [CTRL_WRITE_LIMIT])).1,
    ((C4_bulk_rejection okOracle .usb 3 2 [0, 0, 0] (by norm_num)).2.2
      (by norm_num) (by norm_num [CTRL_READ_LIMIT])).1,
    ((C4_bulk_rejection okOracle .usb 0xffc0 64 [0, 0, 0] (by norm_num)).2.2
      (by norm_num) (by norm_num [CTRL_READ_LIMIT])).2 (by norm_num)
      (by norm_num)⟩

/-- C5 counterexample: the bulk read of 66 bytes at offset 0 fails with
`Align` (the 2-byte second chunk is misaligned), yet it has already issued
the transfer for its first 64-byte chunk — so a failing bulk operation does
not, in general, issue no transfer. -/
theorem C5_perchunk_counterexample :
    (CtrlDevice.read okOracle .pla 0 66).1 = .error .align ∧
    (CtrlDevice.read okOracle .pla 0 66).2 =
      [⟨RTL8152_REQT_READ, RTL8152_REQ_REGS, 0,
        RegType.pla.to_raw ||| BYTE_EN_DWORD, 64, []⟩] :=
  ⟨rfl, rfl⟩

/-- C5 (amended): validation happens per chunk, immediately before that
chunk's transfer: a bulk operation whose first chunk fails validation
(misaligned offset, misaligned first-chunk length, or first chunk crossing
the 16-bit bound) fails with `Align` or `Bound` and issues no transfer at
all; a later chunk's failure leaves the earlier chunks' transfers issued. -/
theorem C5_first_chunk_validation (h : Usbh) (ty : RegType) (o len : Nat)
    (data : List Nat) (ho : o < 65536) :
    (len ≠ 0 →
      (o % 4 ≠ 0 ∨ (min len CTRL_READ_LIMIT) % 4 ≠ 0 ∨
        o + min len CTRL_READ_LIMIT > 65535) →
      (CtrlDevice.read h ty o len).2 = [] ∧
      ((CtrlDevice.read h ty o len).1 = .error .align ∨
        (CtrlDevice.read h ty o len).1 = .error .bound)) ∧
    (data ≠ [] →
      (o % 4 ≠ 0 ∨ (min data.length CTRL_WRITE_LIMIT) % 4 ≠ 0 ∨
        o + min data.length CTRL_WRITE_LIMIT > 65535) →
      (CtrlDevice.write h ty o data).2 = [] ∧
      ((CtrlDevice.write h ty o data).1 = .error .align ∨
        (CtrlDevice.write h ty o data).1 = .error .bound)) := by
  constructor
  · intro h0 hbad
    have hchunk0 : min len CTRL_READ_LIMIT ≠ 0 := by
      have : 0 < min len CTRL_READ_LIMIT :=
        lt_min (by omega) (by norm_num [CTRL_READ_LIMIT])
      omega
    have hrr : read_reg h ty (o % 65536) BYTE_EN_DWORD
          (min len CTRL_READ_LIMIT) = (.error .align, []) ∨
        read_reg h ty (o % 65536) BYTE_EN_DWORD
          (min len CTRL_READ_LIMIT) = (.error .bound, []) := by
      rw [Nat.mod_eq_of_lt ho, read_reg_eq]
      by_cases h1 : o % 4 ≠ 0 ∨ (min len CTRL_READ_LIMIT) % 4 ≠ 0
      · left
        rw [if_neg hchunk0, if_pos h1]
      · right
        have h2 : 65535 < o + min len CTRL_READ_LIMIT := by
          rcases hbad with hb | hb | hb
          · exact absurd (Or.inl hb) h1
          · exact absurd (Or.inr hb) h1
          · exact hb
        rw [if_neg hchunk0, if_neg h1, if_pos h2]
    rw [read_step h ty o len h0]
    rcases hrr with hrr | hrr <;> rw [hrr] <;> simp
  · intro h0 hbad
    have hchunk0 : min data.length CTRL_WRITE_LIMIT ≠ 0 := by
      have hd : data.length ≠ 0 := by simpa using h0
      have : 0 < min data.length CTRL_WRITE_LIMIT :=
        lt_min (by omega) (by norm_num [CTRL_WRITE_LIMIT])
      omega
    have hlen : (data.take (min data.length CTRL_WRITE_LIMIT)).length =
        min data.length CTRL_WRITE_LIMIT := by
      rw [List.length_take]
      omega
    have hrr : write_reg h ty (o % 65536) BYTE_EN_DWORD
          (data.take (min data.length CTRL_WRITE_LIMIT)) =
          (.error .align, []) ∨
        write_reg h ty (o % 65536) BYTE_EN_DWORD
          (data.take (min data.length CTRL_WRITE_LIMIT)) =
          (.error .bound, []) := by
      rw [Nat.mod_eq_of_lt ho, write_reg_eq, hlen]
      by_cases h1 : o % 4 ≠ 0 ∨ (min data.length CTRL_WRITE_LIMIT) % 4 ≠ 0
      · left
        rw [if_neg hchunk0, if_pos h1]
      · right
        have h2 : 65535 < o + min data.length CTRL_WRITE_LIMIT := by
          rcases hbad with hb | hb | hb
          · exact absurd (Or.inl hb) h1
          · exact absurd (Or.inr hb) h1
          · exact hb
        rw [if_neg hchunk0, if_neg h1, if_pos h2]
    rw [write_step h ty o data h0]
    rcases hrr with hrr | hrr <;> rw [hrr] <;> simp

/-- C5 witness: a 4-byte read and a 3-byte write at the misaligned offset 1
fail with `Align` and issue no transfer. -/
theorem C5_first_chunk_validation_witness :
    ((CtrlDevice.read okOracle .usb 1 4).2 = [] ∧
      ((CtrlDevice.read okOracle .usb 1 4).1 = .error .align ∨
        (CtrlDevice.read okOracle .usb 1 4).1 = .error .bound)) ∧
    ((CtrlDevice.write okOracle .usb 1 [0, 0, 0]).2 = [] ∧
      ((CtrlDevice.write okOracle .usb 1 [0, 0, 0]).1 = .error .align ∨
        (CtrlDevice.write okOracle .usb 1 [0, 0, 0]).1 = .error .bound)) :=
  ⟨(C5_first_chunk_validation okOracle .usb 1 4 [0, 0, 0] (by norm_num)).1
      (by norm_num) (by norm_num [CTRL_READ_LIMIT]),
    (C5_first_chunk_validation okOracle .usb 1 4 [0, 0, 0] (by norm_num)).2
      (by simp) (by norm_num [CTRL_WRITE_LIMIT])⟩

end Rtl8152
